import Mathlib

/-!
Verification of the Bluetooth detection / geolocation client (`src/client/app.py`)
against its natural-language specification.

The Python source is shallowly embedded: floats become `ℚ`, dictionaries become
association lists, and the handful of transcendental library calls
(`10 ** x`, `math.sqrt`, the haversine/bearing trigonometry) are threaded in as
explicit function parameters, since their exact values are transcendental and
none of the verified properties depend on them.  Every definition mirrors the
structure of the corresponding Python function; external effects (subprocess
probes, the SQLite store, socket emissions) appear as explicit inputs or are
dropped when they do not feed back into the modelled state.
-/

/-- Python float truthiness for an optional number: `None` and `0` are falsy. -/
def truthyQ : Option ℚ → Bool
  | none => false
  | some x => x != 0

/-- Python int truthiness for an optional integer: `None` and `0` are falsy. -/
def truthyI : Option Int → Bool
  | none => false
  | some x => x != 0

/-- Python string truthiness: `None` and the empty string are falsy. -/
def truthyS : Option String → Bool
  | none => false
  | some s => s != ""

/-- Round-half-to-even on rationals, as Python's builtin `round` does on a tie. -/
def round_half_even (y : ℚ) : ℤ :=
  if y - ⌊y⌋ < 1/2 then ⌊y⌋
  else if y - ⌊y⌋ > 1/2 then ⌊y⌋ + 1
  else if 2 ∣ ⌊y⌋ then ⌊y⌋ else ⌊y⌋ + 1

/-- Python `round(x, 1)`: nearest multiple of `1/10`, ties to even. -/
def pyround1 (x : ℚ) : ℚ := (round_half_even (10 * x) : ℚ) / 10

/-- Python `round(x)` (to an integer), returned as a rational. -/
def pyround0 (x : ℚ) : ℚ := (round_half_even x : ℚ)

/-- Python's `%` on floats: result carries the sign of the divisor. -/
def pymod (a b : ℚ) : ℚ := a - b * ⌊a / b⌋

/-- Lookup in an insertion-ordered association list (a Python `dict`). -/
def alist_get {α : Type} : List (String × α) → String → Option α
  | [], _ => none
  | (k', v) :: t, k => if k' = k then some v else alist_get t k

/-- Update/insert in an insertion-ordered association list (a Python `dict`). -/
def alist_set {α : Type} : List (String × α) → String → α → List (String × α)
  | [], k, v => [(k, v)]
  | (k', v') :: t, k, v => if k' = k then (k, v) :: t else (k', v') :: alist_set t k v

/-- Python `key in dict`. -/
def alist_mem {α : Type} (h : List (String × α)) (k : String) : Bool :=
  (alist_get h k).isSome

-- ==================== GEOLOCATION ALGORITHM ====================

/-- RSSI measurement uncertainty in dBm (`RSSI_UNCERTAINTY = 8.0`). -/
def RSSI_UNCERTAINTY : ℚ := 8

/-- `calculate_distance_from_rssi(rssi, tx_power=-59)`.

`pow10 x` stands for Python's `10 ** x` (transcendental, hence a parameter).
Returns `(distance_estimate, distance_min, distance_max)`; each branch of the
source is mirrored, including the clamp of every component to `1000`. -/
def calculate_distance_from_rssi (pow10 : ℚ → ℚ) (rssi : ℚ) (tx_power : ℚ) : ℚ × ℚ × ℚ :=
  if rssi ≥ 0 then (1/10, 1/10, 1)
  else
    (min (pow10 ((tx_power - rssi) / (10 * (5/2)))) 1000,
     min (pow10 ((tx_power - (rssi + RSSI_UNCERTAINTY)) / (10 * (5/2)))) 1000,
     min (pow10 ((tx_power - (rssi - RSSI_UNCERTAINTY)) / (10 * (5/2)))) 1000)

/-- Maximum of a list of rationals, Python's `max` on a nonempty list. -/
def list_qmax : List ℚ → ℚ
  | [] => 0
  | h :: t => t.foldl max h

/-- `calculate_spatial_diversity(observations)`: the maximum pairwise
great-circle distance among sampling positions.  `hav lat1 lon1 lat2 lon2`
stands for `haversine_distance` (trigonometric, hence a parameter). -/
def calculate_spatial_diversity (hav : ℚ → ℚ → ℚ → ℚ → ℚ) : List (ℚ × ℚ) → ℚ
  | [] => 0
  | [_] => 0
  | p :: rest =>
    max ((rest.map (fun q => hav p.1 p.2 q.1 q.2)).foldl max 0)
        (calculate_spatial_diversity hav rest)

-- ==================== PASSIVE GEO (estimate_emitter_location) ====================

/-- One row of the `rssi_history` query feeding `estimate_emitter_location`:
`(rssi, system_lat, system_lon, timestamp)`, each value possibly NULL. -/
structure PassiveReading where
  rssi : Option Int
  lat : Option ℚ
  lon : Option ℚ
  ts : Nat
deriving DecidableEq

/-- A usable passive observation `(lat, lon, rssi, timestamp)`. -/
structure PassiveObs where
  lat : ℚ
  lon : ℚ
  rssi : ℚ
  ts : Nat
deriving DecidableEq

/-- The observation filter of `estimate_emitter_location`:
`if lat and lon and rssi and rssi < 0: observations.append(...)`. -/
def passive_observations (readings : List PassiveReading) : List PassiveObs :=
  readings.filterMap (fun r =>
    if truthyQ r.lat && truthyQ r.lon && truthyI r.rssi && decide ((r.rssi.getD 0) < 0) then
      some ⟨r.lat.getD 0, r.lon.getD 0, ((r.rssi.getD 0 : Int) : ℚ), r.ts⟩
    else none)

/-- Per-observation weight in passive mode: `1.0 / (dist * dist + 1)`,
a function of the RSSI alone. -/
def passive_weight (pow10 : ℚ → ℚ) (rssi : ℚ) : ℚ :=
  1 / ((calculate_distance_from_rssi pow10 rssi (-59)).1 *
       (calculate_distance_from_rssi pow10 rssi (-59)).1 + 1)

/-- The passive CEP formula of `estimate_emitter_location` (lines 4703-4748):
base CEP from average distance uncertainty, spatial-diversity factor,
diminishing-returns observation-count factor, distance floor, 30 m passive
floor, 200 m cap.  `sqrtq` stands for `math.sqrt`. -/
def passive_cep (pow10 sqrtq : ℚ → ℚ) (rssi_values : List ℚ) (spatial_diversity : ℚ) : ℚ :=
  let distances := rssi_values.map (fun r => calculate_distance_from_rssi pow10 r (-59))
  let avg_distance := (distances.map (fun d => d.1)).sum / distances.length
  let avg_uncertainty := (distances.map (fun d => d.2.2 - d.2.1)).sum / distances.length
  let base_cep := avg_uncertainty * (3/2)
  let diversity_factor : ℚ :=
    if spatial_diversity < 10 then 3
    else if spatial_diversity < 30 then 2
    else if spatial_diversity < 50 then 3/2
    else if spatial_diversity < 100 then 6/5
    else 1
  let obs_factor := max (7/10) (min (sqrtq (10 / max (rssi_values.length : ℚ) 1)) (3/2))
  min 200 (max 30 (max (base_cep * diversity_factor * obs_factor) (avg_distance * (3/10))))

/-- `estimate_emitter_location(bd_address)`, with the database query result
passed in as `readings` (the function's only input besides globals).
Returns `(est_lat, est_lon, round(cep_radius, 1))` or `None`. -/
def estimate_emitter_location (pow10 sqrtq : ℚ → ℚ) (hav : ℚ → ℚ → ℚ → ℚ → ℚ)
    (readings : List PassiveReading) : Option (ℚ × ℚ × ℚ) :=
  if readings.length < 3 then none
  else
    if (passive_observations readings).length < 3 then none
    else
      if ((passive_observations readings).map (fun o => passive_weight pow10 o.rssi)).sum = 0 then none
      else
        some (((passive_observations readings).map (fun o => o.lat * passive_weight pow10 o.rssi)).sum /
                ((passive_observations readings).map (fun o => passive_weight pow10 o.rssi)).sum,
              ((passive_observations readings).map (fun o => o.lon * passive_weight pow10 o.rssi)).sum /
                ((passive_observations readings).map (fun o => passive_weight pow10 o.rssi)).sum,
              pyround1 (passive_cep pow10 sqrtq
                ((passive_observations readings).map (fun o => o.rssi))
                (calculate_spatial_diversity hav
                  ((passive_observations readings).map (fun o => (o.lat, o.lon))))))

-- C9: calculate_distance_from_rssi totality and bounds --

/-- C9: `calculate_distance_from_rssi` is total over all integer RSSI inputs and
always bounded: for `rssi ≥ 0` it returns the fixed triple `(0.1, 0.1, 1.0)`,
and for `rssi < 0` each returned distance is clamped to at most 1000 m —
for every value of the path-loss power `10 ** x`. -/
theorem C9_distance_total_bounded (pow10 : ℚ → ℚ) (rssi : ℤ) (tx_power : ℚ) :
    ((0 : ℤ) ≤ rssi → calculate_distance_from_rssi pow10 (rssi : ℚ) tx_power = (1/10, 1/10, 1)) ∧
    (rssi < 0 →
      (calculate_distance_from_rssi pow10 (rssi : ℚ) tx_power).1 ≤ 1000 ∧
      (calculate_distance_from_rssi pow10 (rssi : ℚ) tx_power).2.1 ≤ 1000 ∧
      (calculate_distance_from_rssi pow10 (rssi : ℚ) tx_power).2.2 ≤ 1000) := by
  constructor
  · intro h
    have h' : ((rssi : ℚ)) ≥ 0 := by exact_mod_cast h
    simp [calculate_distance_from_rssi, h']
  · intro h
    have h' : ¬ ((rssi : ℚ) ≥ 0) := by
      push_neg
      exact_mod_cast h
    simp only [calculate_distance_from_rssi, if_neg h']
    exact ⟨min_le_right _ _, min_le_right _ _, min_le_right _ _⟩

/-- Witness for C9 at a concrete input: an unclamped path-loss value of 2000
is clamped to 1000, and a non-negative RSSI yields the fixed triple. -/
theorem C9_distance_total_bounded_witness :
    (calculate_distance_from_rssi (fun _ => 2000) ((4 : ℤ) : ℚ) (-59) = (1/10, 1/10, 1)) ∧
    (calculate_distance_from_rssi (fun _ => 2000) ((-65 : ℤ) : ℚ) (-59)).1 ≤ 1000 := by
  constructor
  · exact (C9_distance_total_bounded (fun _ => 2000) 4 (-59)).1 (by decide)
  · exact ((C9_distance_total_bounded (fun _ => 2000) (-65) (-59)).2 (by decide)).1

-- ==================== ACTIVE GEO (calculate_geolocation) ====================

/-- One row of the `rssi_history` query feeding `calculate_geolocation`:
`(system_lat, system_lon, rssi, timestamp)` with `system_lat IS NOT NULL`
and `rssi IS NOT NULL` enforced by the query. -/
structure ActiveObs where
  lat : ℚ
  lon : ℚ
  rssi : Int
  ts : Nat
deriving DecidableEq

/-- The skip test of the active loop:
`if rssi >= 0 or not lat or not lon: continue`. -/
def usable_active (o : ActiveObs) : Bool :=
  decide (o.rssi < 0) && decide (o.lat ≠ 0) && decide (o.lon ≠ 0)

/-- The observations that contribute to the active weighted centroid. -/
def active_usable (observations : List ActiveObs) : List ActiveObs :=
  observations.filter usable_active

/-- The `rssi_values` list accumulated by the active loop. -/
def active_rssi_values (observations : List ActiveObs) : List ℚ :=
  (active_usable observations).map (fun o => ((o.rssi : Int) : ℚ))

/-- Per-observation weight in active mode:
`signal_quality / (dist * dist + 1)` with
`signal_quality = max(0.1, (rssi + 100) / 50)` — a function of the RSSI alone. -/
def active_weight (pow10 : ℚ → ℚ) (rssi : ℚ) : ℚ :=
  max (1/10) ((rssi + 100) / 50) /
    ((calculate_distance_from_rssi pow10 rssi (-59)).1 *
     (calculate_distance_from_rssi pow10 rssi (-59)).1 + 1)

/-- `total_weight` of the active loop. -/
def active_total_weight (pow10 : ℚ → ℚ) (observations : List ActiveObs) : ℚ :=
  ((active_rssi_values observations).map (active_weight pow10)).sum

/-- The spatial diversity an active run computes:
`obs_coords = [o for o in observations if o[0] and o[1]]`. -/
def active_spatial_diversity (hav : ℚ → ℚ → ℚ → ℚ → ℚ) (observations : List ActiveObs) : ℚ :=
  calculate_spatial_diversity hav
    ((observations.filter (fun o => decide (o.lat ≠ 0) && decide (o.lon ≠ 0))).map
      (fun o => (o.lat, o.lon)))

/-- `rssi_std` of the active loop: `sqrtq` stands for `math.sqrt` applied to the
population variance of the usable RSSI values. -/
def active_rssi_std (sqrtq : ℚ → ℚ) (rssi_values : List ℚ) : ℚ :=
  sqrtq (((rssi_values.map (fun r => (r - rssi_values.sum / rssi_values.length) ^ 2)).sum) /
         rssi_values.length)

/-- The spatial-diversity factor of the active CEP (lines 7606-7616). -/
def active_diversity_factor (spatial_diversity : ℚ) : ℚ :=
  if spatial_diversity < 10 then 5/2
  else if spatial_diversity < 30 then 9/5
  else if spatial_diversity < 50 then 13/10
  else if spatial_diversity < 100 then 1
  else 4/5

/-- The quality-dependent minimum CEP of active mode (lines 7648-7657). -/
def active_min_cep (spatial_diversity : ℚ) (n_obs : Nat) (strongest_rssi rssi_std : ℚ) : ℚ :=
  if spatial_diversity > 100 ∧ n_obs > 15 ∧ strongest_rssi > -60 ∧ rssi_std < 5 then 10
  else if spatial_diversity > 50 ∧ n_obs > 10 ∧ strongest_rssi > -70 then 15
  else if spatial_diversity > 30 ∧ n_obs > 5 then 20
  else 25

/-- The active CEP formula of `calculate_geolocation` (lines 7578-7662):
distance-uncertainty base, RSSI-consistency factor, spatial-diversity factor,
observation-count factor, signal-strength factor, 15 % distance floor, the
quality-dependent 10/15/20/25 m floor, and the 150 m cap.
`n_obs` is the raw observation count `len(observations)`. -/
def active_cep (pow10 sqrtq : ℚ → ℚ) (rssi_values : List ℚ) (n_obs : Nat)
    (spatial_diversity : ℚ) : ℚ :=
  let distances := rssi_values.map (fun r => calculate_distance_from_rssi pow10 r (-59))
  let avg_distance := (distances.map (fun d => d.1)).sum / distances.length
  let avg_uncertainty := (distances.map (fun d => d.2.2 - d.2.1)).sum / distances.length
  let rssi_std := active_rssi_std sqrtq rssi_values
  let base_cep := avg_uncertainty * (8/10)
  let consistency_factor : ℚ :=
    if rssi_std < 3 then 7/10
    else if rssi_std < 6 then 85/100
    else if rssi_std < 10 then 1
    else 13/10
  let diversity_factor : ℚ := active_diversity_factor spatial_diversity
  let obs_factor : ℚ :=
    if n_obs ≥ 20 then 7/10
    else if n_obs ≥ 15 then 8/10
    else if n_obs ≥ 10 then 9/10
    else 1 + ((10 : ℚ) - (n_obs : ℚ)) * (1/10)
  let strongest_rssi := list_qmax rssi_values
  let signal_factor : ℚ :=
    if strongest_rssi > -50 then 6/10
    else if strongest_rssi > -60 then 8/10
    else if strongest_rssi > -70 then 1
    else if strongest_rssi > -80 then 13/10
    else 16/10
  let cep := base_cep * consistency_factor * diversity_factor * obs_factor * signal_factor
  let min_cep : ℚ := active_min_cep spatial_diversity n_obs strongest_rssi rssi_std
  min 150 (max min_cep (max cep (avg_distance * (15/100))))

/-- The confidence percentage of `calculate_geolocation` (lines 7664-7674). -/
def active_confidence (sqrtq : ℚ → ℚ) (rssi_values : List ℚ) (n_obs : Nat)
    (spatial_diversity : ℚ) : ℚ :=
  min 95 (50 + (if n_obs ≥ 10 then (15 : ℚ) else 0) +
              (if spatial_diversity > 50 then (15 : ℚ) else 0) +
              (if active_rssi_std sqrtq rssi_values < 6 then (10 : ℚ) else 0) +
              (if list_qmax rssi_values > -65 then (5 : ℚ) else 0))

/-- The dictionary returned by a successful `calculate_geolocation` run. -/
structure GeoResult where
  lat : ℚ
  lon : ℚ
  cep : ℚ
  confidence : ℚ
  observations : Nat
  spatial_diversity : ℚ
  rssi_std : ℚ
  strongest_rssi : ℚ
deriving DecidableEq

/-- `calculate_geolocation(observations)`: the ACTIVE-mode estimator. -/
def calculate_geolocation (pow10 sqrtq : ℚ → ℚ) (hav : ℚ → ℚ → ℚ → ℚ → ℚ)
    (observations : List ActiveObs) : Option GeoResult :=
  if observations.length < 3 then none
  else
    if active_total_weight pow10 observations = 0 ∨ (active_rssi_values observations).length < 3 then
      none
    else
      some { lat := ((active_usable observations).map
                      (fun o => o.lat * active_weight pow10 ((o.rssi : Int) : ℚ))).sum /
                    active_total_weight pow10 observations,
             lon := ((active_usable observations).map
                      (fun o => o.lon * active_weight pow10 ((o.rssi : Int) : ℚ))).sum /
                    active_total_weight pow10 observations,
             cep := pyround1 (active_cep pow10 sqrtq (active_rssi_values observations)
                      observations.length (active_spatial_diversity hav observations)),
             confidence := active_confidence sqrtq (active_rssi_values observations)
                      observations.length (active_spatial_diversity hav observations),
             observations := observations.length,
             spatial_diversity := pyround1 (active_spatial_diversity hav observations),
             rssi_std := pyround1 (active_rssi_std sqrtq (active_rssi_values observations)),
             strongest_rssi := list_qmax (active_rssi_values observations) }

-- C5: fewer than 3 usable observations yields no result --

/-- C5: both estimators return no result whenever fewer than 3 usable
observations exist, where usable means a truthy operator position and a
negative signal strength (the source's own usability filters). -/
theorem C5_insufficient_observations (pow10 sqrtq : ℚ → ℚ) (hav : ℚ → ℚ → ℚ → ℚ → ℚ)
    (readings : List PassiveReading) (observations : List ActiveObs) :
    ((passive_observations readings).length < 3 →
      estimate_emitter_location pow10 sqrtq hav readings = none) ∧
    ((active_usable observations).length < 3 →
      calculate_geolocation pow10 sqrtq hav observations = none) := by
  constructor
  · intro h
    unfold estimate_emitter_location
    by_cases hr : readings.length < 3
    · rw [if_pos hr]
    · rw [if_neg hr, if_pos h]
  · intro h
    unfold calculate_geolocation
    by_cases hn : observations.length < 3
    · rw [if_pos hn]
    · have hd : active_total_weight pow10 observations = 0 ∨
          (active_rssi_values observations).length < 3 :=
        Or.inr (by simpa [active_rssi_values] using h)
      rw [if_neg hn, if_pos hd]

/-- Witness for C5: the empty observation sets have fewer than 3 usable
observations, and both estimators return `none` on them. -/
theorem C5_insufficient_observations_witness :
    estimate_emitter_location (fun _ => 1) (fun _ => 1) (fun _ _ _ _ => 0) [] = none ∧
    calculate_geolocation (fun _ => 1) (fun _ => 1) (fun _ _ _ _ => 0) [] = none := by
  constructor
  · exact (C5_insufficient_observations (fun _ => 1) (fun _ => 1) (fun _ _ _ _ => 0) [] []).1
      (by decide)
  · exact (C5_insufficient_observations (fun _ => 1) (fun _ => 1) (fun _ _ _ _ => 0) [] []).2
      (by decide)

-- C8: CEP floors --

/-- Rounding half-to-even never goes below the floor of its argument. -/
theorem round_half_even_ge_floor (y : ℚ) : ⌊y⌋ ≤ round_half_even y := by
  unfold round_half_even
  split_ifs <;> omega

/-- Rounding half-to-even never exceeds the floor of its argument plus one. -/
theorem round_half_even_le_floor_add_one (y : ℚ) : round_half_even y ≤ ⌊y⌋ + 1 := by
  unfold round_half_even
  split_ifs <;> omega

/-- `round(x, 1)` of a value at least the integer `n` is still at least `n`. -/
theorem le_pyround1 {n : ℤ} {x : ℚ} (h : (n : ℚ) ≤ x) : (n : ℚ) ≤ pyround1 x := by
  have h1 : (10 * n : ℤ) ≤ ⌊(10 : ℚ) * x⌋ := by
    rw [Int.le_floor]
    push_cast
    linarith
  have h2 : ⌊(10 : ℚ) * x⌋ ≤ round_half_even (10 * x) := round_half_even_ge_floor _
  unfold pyround1
  rw [le_div_iff₀ (by norm_num : (0 : ℚ) < 10)]
  have h3 : (n * 10 : ℤ) ≤ round_half_even (10 * x) := by omega
  exact_mod_cast h3

/-- Fallback record for reading the result of a successful active run. -/
def geo_default : GeoResult := ⟨0, 0, 0, 0, 0, 0, 0, 0⟩

/-- The quality-dependent active floor is always at least 10 m. -/
theorem active_cep_min_floor (pow10 sqrtq : ℚ → ℚ) (rssi_values : List ℚ) (n_obs : Nat)
    (spatial_diversity : ℚ) : 10 ≤ active_cep pow10 sqrtq rssi_values n_obs spatial_diversity := by
  unfold active_cep active_min_cep
  refine le_min (by norm_num) (le_trans ?_ (le_max_left _ _))
  split_ifs <;> norm_num

/-- The passive CEP is always at least 30 m before rounding. -/
theorem passive_cep_floor (pow10 sqrtq : ℚ → ℚ) (rssi_values : List ℚ)
    (spatial_diversity : ℚ) : 30 ≤ passive_cep pow10 sqrtq rssi_values spatial_diversity := by
  unfold passive_cep
  exact le_min (by norm_num) (le_max_left _ _)

/-- C8: every successful passive estimate carries a confidence radius of at
least 30 m, and every successful active estimate one of at least 10 m (the
active floor itself being the quality-dependent 10/15/20/25 m step). -/
theorem C8_cep_floors (pow10 sqrtq : ℚ → ℚ) (hav : ℚ → ℚ → ℚ → ℚ → ℚ) :
    (∀ readings : List PassiveReading,
      (estimate_emitter_location pow10 sqrtq hav readings).isSome = true →
        30 ≤ ((estimate_emitter_location pow10 sqrtq hav readings).getD (0, 0, 0)).2.2) ∧
    (∀ observations : List ActiveObs,
      (calculate_geolocation pow10 sqrtq hav observations).isSome = true →
        10 ≤ ((calculate_geolocation pow10 sqrtq hav observations).getD geo_default).cep) := by
  constructor
  · intro readings h
    unfold estimate_emitter_location at h ⊢
    split_ifs at h ⊢ with h1 h2 h3
    · simp at h
    · simp at h
    · simp at h
    · rw [Option.getD_some]
      exact_mod_cast le_pyround1 (n := 30) (by exact_mod_cast passive_cep_floor _ _ _ _)
  · intro observations h
    unfold calculate_geolocation at h ⊢
    split_ifs at h ⊢ with h1 h2
    · simp at h
    · simp at h
    · rw [Option.getD_some]
      exact_mod_cast le_pyround1 (n := 10) (by exact_mod_cast active_cep_min_floor _ _ _ _ _)

/-- Witness for C8: a run on three identical usable samples succeeds in both
modes, and the floors hold on the concrete results. -/
theorem C8_cep_floors_witness :
    30 ≤ ((estimate_emitter_location (fun _ => 1) (fun _ => 1) (fun _ _ _ _ => 0)
            [⟨some (-65), some 1, some 1, 0⟩, ⟨some (-65), some 1, some 1, 1⟩,
             ⟨some (-65), some 1, some 1, 2⟩]).getD (0, 0, 0)).2.2 ∧
    10 ≤ ((calculate_geolocation (fun _ => 1) (fun _ => 1) (fun _ _ _ _ => 0)
            [⟨1, 1, -65, 0⟩, ⟨1, 1, -65, 1⟩, ⟨1, 1, -65, 2⟩]).getD geo_default).cep := by
  constructor
  · exact (C8_cep_floors (fun _ => 1) (fun _ => 1) (fun _ _ _ _ => 0)).1
      [⟨some (-65), some 1, some 1, 0⟩, ⟨some (-65), some 1, some 1, 1⟩,
       ⟨some (-65), some 1, some 1, 2⟩]
      (by norm_num [estimate_emitter_location, passive_observations, truthyQ, truthyI,
        passive_weight, calculate_distance_from_rssi, RSSI_UNCERTAINTY, List.filterMap_cons])
  · exact (C8_cep_floors (fun _ => 1) (fun _ => 1) (fun _ _ _ _ => 0)).2
      [⟨1, 1, -65, 0⟩, ⟨1, 1, -65, 1⟩, ⟨1, 1, -65, 2⟩]
      (by norm_num [calculate_geolocation, active_total_weight, active_rssi_values,
        active_usable, usable_active, active_weight, calculate_distance_from_rssi,
        RSSI_UNCERTAINTY, List.filter_cons])

-- C7: CEP is non-increasing in spatial diversity --

/-- The spatial-diversity factor never increases as diversity grows. -/
theorem active_diversity_factor_antitone {d1 d2 : ℚ} (h : d1 ≤ d2) :
    active_diversity_factor d2 ≤ active_diversity_factor d1 := by
  unfold active_diversity_factor
  split_ifs <;> linarith

/-- The spatial-diversity factor is strictly positive. -/
theorem active_diversity_factor_pos (d : ℚ) : 0 < active_diversity_factor d := by
  unfold active_diversity_factor
  split_ifs <;> norm_num

/-- The quality-dependent active floor is at most 25 m. -/
theorem active_min_cep_le_25 (d : ℚ) (n : Nat) (s t : ℚ) : active_min_cep d n s t ≤ 25 := by
  unfold active_min_cep
  split_ifs <;> norm_num

/-- The quality-dependent active floor is at least 10 m. -/
theorem active_min_cep_ge_10 (d : ℚ) (n : Nat) (s t : ℚ) : 10 ≤ active_min_cep d n s t := by
  unfold active_min_cep
  split_ifs <;> norm_num

/-- The quality-dependent active floor never increases as diversity grows. -/
theorem active_min_cep_antitone (n : Nat) (s t : ℚ) {d1 d2 : ℚ} (h : d1 ≤ d2) :
    active_min_cep d2 n s t ≤ active_min_cep d1 n s t := by
  unfold active_min_cep
  by_cases h1 : d1 > 100 ∧ n > 15 ∧ s > -60 ∧ t < 5
  · rw [if_pos h1, if_pos ⟨lt_of_lt_of_le h1.1 h, h1.2⟩]
  · rw [if_neg h1]
    by_cases h2 : d1 > 50 ∧ n > 10 ∧ s > -70
    · rw [if_pos h2]
      have h2' : d2 > 50 ∧ n > 10 ∧ s > -70 := ⟨lt_of_lt_of_le h2.1 h, h2.2⟩
      by_cases hc1 : d2 > 100 ∧ n > 15 ∧ s > -60 ∧ t < 5
      · rw [if_pos hc1]; norm_num
      · rw [if_neg hc1, if_pos h2']
    · rw [if_neg h2]
      by_cases h3 : d1 > 30 ∧ n > 5
      · rw [if_pos h3]
        have h3' : d2 > 30 ∧ n > 5 := ⟨lt_of_lt_of_le h3.1 h, h3.2⟩
        by_cases hc1 : d2 > 100 ∧ n > 15 ∧ s > -60 ∧ t < 5
        · rw [if_pos hc1]; norm_num
        · rw [if_neg hc1]
          by_cases hc2 : d2 > 50 ∧ n > 10 ∧ s > -70
          · rw [if_pos hc2]; norm_num
          · rw [if_neg hc2, if_pos h3']
      · rw [if_neg h3]
        split_ifs <;> norm_num

/-- Core shape of the active CEP in the diversity direction: with every
diversity-independent quantity frozen, the capped/floored product never
increases as the diversity factor shrinks and the floor shrinks. -/
theorem cep_core_antitone (B F mc1 mc2 df1 df2 : ℚ) (hdf : df2 ≤ df1)
    (hdf2 : 0 ≤ df2) (hmc : mc2 ≤ mc1) (hmc10 : 10 ≤ mc2) :
    min 150 (max mc2 (max (B * df2) F)) ≤ min 150 (max mc1 (max (B * df1) F)) := by
  rcases le_or_lt 0 B with hB | hB
  · exact min_le_min le_rfl
      (max_le_max hmc (max_le_max (mul_le_mul_of_nonneg_left hdf hB) le_rfl))
  · have hb2 : B * df2 ≤ mc2 :=
      le_trans (mul_nonpos_of_nonpos_of_nonneg (le_of_lt hB) hdf2) (by linarith)
    have hb1 : B * df1 ≤ mc1 :=
      le_trans (mul_nonpos_of_nonpos_of_nonneg (le_of_lt hB) (le_trans hdf2 hdf))
        (by linarith)
    have e2 : max mc2 (max (B * df2) F) = max mc2 F := by
      rw [← max_assoc, max_eq_left hb2]
    have e1 : max mc1 (max (B * df1) F) = max mc1 F := by
      rw [← max_assoc, max_eq_left hb1]
    rw [e1, e2]
    exact min_le_min le_rfl (max_le_max hmc le_rfl)

/-- The whole active CEP formula is non-increasing in spatial diversity,
all other statistics held fixed. -/
theorem active_cep_antitone (pow10 sqrtq : ℚ → ℚ) (rssi_values : List ℚ) (n_obs : Nat)
    {d1 d2 : ℚ} (h : d1 ≤ d2) :
    active_cep pow10 sqrtq rssi_values n_obs d2 ≤
      active_cep pow10 sqrtq rssi_values n_obs d1 := by
  simp only [active_cep]
  have hmul : ∀ b c o s d : ℚ,
      b * c * active_diversity_factor d * o * s =
        (b * c * o * s) * active_diversity_factor d := by
    intro b c o s d
    ring
  rw [hmul, hmul]
  exact cep_core_antitone _ _ _ _ _ _
    (active_diversity_factor_antitone h)
    (le_of_lt (active_diversity_factor_pos d2))
    (active_min_cep_antitone _ _ _ h)
    (active_min_cep_ge_10 _ _ _ _)

/-- Rounding half-to-even is monotone. -/
theorem round_half_even_mono {a b : ℚ} (h : a ≤ b) :
    round_half_even a ≤ round_half_even b := by
  rcases lt_or_eq_of_le (Int.floor_le_floor h) with hf | hf
  · calc round_half_even a ≤ ⌊a⌋ + 1 := round_half_even_le_floor_add_one a
      _ ≤ ⌊b⌋ := by omega
      _ ≤ round_half_even b := round_half_even_ge_floor b
  · have hq : ((⌊a⌋ : ℤ) : ℚ) = ((⌊b⌋ : ℤ) : ℚ) := by exact_mod_cast hf
    unfold round_half_even
    rw [hf]
    split_ifs <;> first | omega | linarith

/-- `round(x, 1)` is monotone. -/
theorem pyround1_mono {x y : ℚ} (h : x ≤ y) : pyround1 x ≤ pyround1 y := by
  unfold pyround1
  have h10 : (10 : ℚ) * x ≤ 10 * y := by linarith
  have := round_half_even_mono h10
  gcongr

/-- Two active observation lists with the same RSSI sequence and everywhere
truthy positions produce the same usable RSSI list. -/
theorem active_rssi_values_congr :
    ∀ (l1 l2 : List ActiveObs),
      l1.map (fun o => o.rssi) = l2.map (fun o => o.rssi) →
      (∀ o ∈ l1, o.lat ≠ 0 ∧ o.lon ≠ 0) →
      (∀ o ∈ l2, o.lat ≠ 0 ∧ o.lon ≠ 0) →
      active_rssi_values l1 = active_rssi_values l2 := by
  intro l1
  induction l1 with
  | nil =>
    intro l2 hmap _ _
    have : l2 = [] := by
      cases l2 with
      | nil => rfl
      | cons b s => simp at hmap
    rw [this]
  | cons a t ih =>
    intro l2 hmap hp1 hp2
    cases l2 with
    | nil => simp at hmap
    | cons b s =>
      simp only [List.map_cons, List.cons.injEq] at hmap
      have ha := hp1 a (by simp)
      have hb := hp2 b (by simp)
      have htail := ih s hmap.2 (fun o ho => hp1 o (by simp [ho]))
        (fun o ho => hp2 o (by simp [ho]))
      have hua : usable_active a = usable_active b := by
        simp [usable_active, ha.1, ha.2, hb.1, hb.2, hmap.1]
      by_cases hkeep : usable_active b = true
      · simp only [active_rssi_values, active_usable, List.filter_cons, hua, hkeep,
          if_true, List.map_cons]
        rw [hmap.1]
        exact congrArg (List.cons _)
          (by simpa [active_rssi_values, active_usable] using htail)
      · have hkf : usable_active b = false := by simpa using hkeep
        simp only [active_rssi_values, active_usable, List.filter_cons, hua, hkf,
          Bool.false_eq_true, if_false]
        simpa [active_rssi_values, active_usable] using htail

/-- C7: with the sample count and RSSI sequence held fixed (and all operator
positions valid), the active-mode confidence radius is monotonically
non-increasing as the spatial diversity of the sampling positions grows. -/
theorem C7_cep_antitone_in_diversity (pow10 sqrtq : ℚ → ℚ) (hav : ℚ → ℚ → ℚ → ℚ → ℚ)
    (obs1 obs2 : List ActiveObs)
    (hrssi : obs1.map (fun o => o.rssi) = obs2.map (fun o => o.rssi))
    (hpos1 : ∀ o ∈ obs1, o.lat ≠ 0 ∧ o.lon ≠ 0)
    (hpos2 : ∀ o ∈ obs2, o.lat ≠ 0 ∧ o.lon ≠ 0)
    (hdiv : active_spatial_diversity hav obs1 ≤ active_spatial_diversity hav obs2)
    (h1 : (calculate_geolocation pow10 sqrtq hav obs1).isSome = true)
    (h2 : (calculate_geolocation pow10 sqrtq hav obs2).isSome = true) :
    ((calculate_geolocation pow10 sqrtq hav obs2).getD geo_default).cep ≤
      ((calculate_geolocation pow10 sqrtq hav obs1).getD geo_default).cep := by
  have hrv : active_rssi_values obs1 = active_rssi_values obs2 :=
    active_rssi_values_congr obs1 obs2 hrssi hpos1 hpos2
  have hlen : obs1.length = obs2.length := by
    have := congrArg List.length hrssi
    simpa using this
  unfold calculate_geolocation at h1 h2 ⊢
  split_ifs at h1 with g11 g12
  · simp at h1
  · simp at h1
  · split_ifs at h2 with g21 g22
    · simp at h2
    · simp at h2
    · rw [if_neg g11, if_neg g12, if_neg g21, if_neg g22, Option.getD_some, Option.getD_some]
      dsimp only
      rw [← hrv, ← hlen]
      exact pyround1_mono (active_cep_antitone pow10 sqrtq _ _ hdiv)

/-- Witness for C7: three co-located samples versus the same RSSI sequence
taken from three spread-out positions; the spread-out run's confidence radius
is no larger. -/
theorem C7_cep_antitone_in_diversity_witness :
    ((calculate_geolocation (fun _ => 1) (fun _ => 1)
        (fun a b c d => (a - c) ^ 2 + (b - d) ^ 2)
        [⟨1, 1, -65, 0⟩, ⟨2, 2, -70, 1⟩, ⟨3, 3, -75, 2⟩]).getD geo_default).cep ≤
      ((calculate_geolocation (fun _ => 1) (fun _ => 1)
        (fun a b c d => (a - c) ^ 2 + (b - d) ^ 2)
        [⟨1, 1, -65, 0⟩, ⟨1, 1, -70, 1⟩, ⟨1, 1, -75, 2⟩]).getD geo_default).cep := by
  exact C7_cep_antitone_in_diversity (fun _ => 1) (fun _ => 1)
    (fun a b c d => (a - c) ^ 2 + (b - d) ^ 2)
    [⟨1, 1, -65, 0⟩, ⟨1, 1, -70, 1⟩, ⟨1, 1, -75, 2⟩]
    [⟨1, 1, -65, 0⟩, ⟨2, 2, -70, 1⟩, ⟨3, 3, -75, 2⟩]
    (by norm_num)
    (by simp)
    (by simp)
    (by norm_num [active_spatial_diversity, calculate_spatial_diversity, List.filter_cons])
    (by norm_num [calculate_geolocation, active_total_weight, active_rssi_values,
      active_usable, usable_active, active_weight, calculate_distance_from_rssi,
      RSSI_UNCERTAINTY, List.filter_cons])
    (by norm_num [calculate_geolocation, active_total_weight, active_rssi_values,
      active_usable, usable_active, active_weight, calculate_distance_from_rssi,
      RSSI_UNCERTAINTY, List.filter_cons])

-- ==================== CLASSIFIER (get_device_type) ====================

/-- Substring test, Python's `needle in haystack` on strings. -/
def pysubstr (needle hay : String) : Bool := decide (needle.toList <:+: hay.toList)

/-- Python `str.lower()` (per-character, faithful for the ASCII tool output). -/
def pylower (s : String) : String := ⟨s.data.map Char.toLower⟩

/-- Python `str.upper()` (per-character, faithful for colon-hex addresses). -/
def pyupper (s : String) : String := ⟨s.data.map Char.toUpper⟩

/-- A `btmon_device_cache` entry / parsed btmon record: a Python dict whose
keys may be absent (`none` models an absent key; the btmon parser never stores
a `None` value under a present key). -/
structure BtmonData where
  device_type : Option String := none
  device_name : Option String := none
  company_name : Option String := none
  rssi : Option Int := none
  tx_power : Option Int := none
  addr_type : Option String := none
  adv_type : Option String := none
  timestamp : Option Nat := none
deriving DecidableEq

/-- Method 1 of `get_device_type` (lines 1577-1591): the btmon cache.
Returns the definitive answer, or `none` to fall through. -/
def gdt_btmon (btmon_info : Option BtmonData) : Option String :=
  match btmon_info with
  | none => none
  | some b =>
    if b.device_type = some "ble" ∨ b.device_type = some "classic" then b.device_type
    else if pylower (b.addr_type.getD "") ∈
        ["resolvable", "static", "non-resolvable", "random"] then some "ble"
    else if truthyS b.adv_type then some "ble"
    else none

/-- Method 2 of `get_device_type` (lines 1593-1628): the `bluetoothctl info`
output (`none` = the command raised / timed out). -/
def gdt_bluetoothctl (out : Option String) : Option String :=
  match out with
  | none => none
  | some stdout =>
    let output := pylower stdout
    if pysubstr "addresstype: random" output then some "ble"
    else if pysubstr "le only" output then some "ble"
    else if pysubstr "class: 0x" output then some "classic"
    else if ["handsfree", "a2dp", "avrcp", "hfp", "headset", "serial port", "obex",
             "pbap", "map ", "hid"].any (fun u => pysubstr ("uuid: " ++ u) output) then
      some "classic"
    else if ["generic access", "generic attribute", "battery service", "heart rate",
             "health thermometer", "device information"].any
              (fun u => pysubstr ("uuid: " ++ u) output) then some "ble"
    else none

/-- Method 3 of `get_device_type` (lines 1630-1642): the `hcitool info`
output (`none` = the command raised / timed out). -/
def gdt_hcitool (out : Option String) : Option String :=
  match out with
  | none => none
  | some stdout =>
    if pysubstr "class:" (pylower stdout) && pysubstr "0x" (pylower stdout) then some "classic"
    else none

/-- `get_device_type(bd_address)` (lines 1569-1646): definitive indicators
only, in priority order, else `"unknown"` — never a guess.  Its inputs are the
btmon cache entry for the address and the textual outputs of the two probe
commands. -/
def get_device_type (btmon_info : Option BtmonData)
    (btctl_out hcitool_out : Option String) : String :=
  match gdt_btmon btmon_info with
  | some t => t
  | none =>
    match gdt_bluetoothctl btctl_out with
    | some t => t
    | none =>
      match gdt_hcitool hcitool_out with
      | some t => t
      | none => "unknown"

/-- Whether any of the three definitive checks of `get_device_type` fires. -/
def has_definitive_signal (b : Option BtmonData) (c h : Option String) : Bool :=
  (gdt_btmon b).isSome || (gdt_bluetoothctl c).isSome || (gdt_hcitool h).isSome

/-- Line 4964 of `active_geo_track`:
`'device_type': device_type if device_type != 'unknown' else 'classic'`. -/
def active_geo_recorded_type (device_type : String) : String :=
  if device_type ≠ "unknown" then device_type else "classic"

/-- Lines 4170-4171 of `stimulate_ble_devices`:
`if device_type == 'unknown': device_type = 'ble'`. -/
def stimulate_recorded_type (device_type : String) : String :=
  if device_type = "unknown" then "ble" else device_type

-- C2 --

/-- C2 as stated is false on the code: with no definitive signal,
`get_device_type` correctly answers "unknown", yet the device record built by
`active_geo_track` carries type "classic" and the one built by
`stimulate_ble_devices` carries "ble". -/
theorem C2_counterexample :
    get_device_type none none none = "unknown" ∧
    active_geo_recorded_type (get_device_type none none none) = "classic" ∧
    stimulate_recorded_type (get_device_type none none none) = "ble" := by
  refine ⟨rfl, rfl, rfl⟩

/-- C2 amended: `get_device_type` itself never defaults — whenever none of its
definitive indicator checks fires it returns "unknown" — but the device-record
builders of `active_geo_track` and `stimulate_ble_devices` then replace that
"unknown" with "classic" and "ble" respectively. -/
theorem C2_classifier_never_defaults (b : Option BtmonData) (c h : Option String)
    (hno : has_definitive_signal b c h = false) :
    get_device_type b c h = "unknown" ∧
    active_geo_recorded_type (get_device_type b c h) = "classic" ∧
    stimulate_recorded_type (get_device_type b c h) = "ble" := by
  have hs := hno
  unfold has_definitive_signal at hs
  rw [Bool.or_eq_false_iff, Bool.or_eq_false_iff] at hs
  obtain ⟨⟨h1, h2⟩, h3⟩ := hs
  have conv : ∀ {α : Type} (o : Option α), o.isSome = false → o = none := by
    intro α o ho
    cases o with
    | none => rfl
    | some v => simp at ho
  have hu : get_device_type b c h = "unknown" := by
    unfold get_device_type
    rw [conv _ h1, conv _ h2, conv _ h3]
  exact ⟨hu, by rw [hu]; rfl, by rw [hu]; rfl⟩

/-- Witness for the amended C2 at a concrete ambiguous observation: a cached
btmon record with only a public address type, uninformative command outputs. -/
theorem C2_classifier_never_defaults_witness :
    get_device_type (some { addr_type := some "public" })
        (some "Device AA:BB:CC:DD:EE:FF\nName: foo") (some "Requesting information ...") =
      "unknown" ∧
    active_geo_recorded_type (get_device_type (some { addr_type := some "public" })
        (some "Device AA:BB:CC:DD:EE:FF\nName: foo") (some "Requesting information ...")) =
      "classic" ∧
    stimulate_recorded_type (get_device_type (some { addr_type := some "public" })
        (some "Device AA:BB:CC:DD:EE:FF\nName: foo") (some "Requesting information ...")) =
      "ble" :=
  C2_classifier_never_defaults (some { addr_type := some "public" })
    (some "Device AA:BB:CC:DD:EE:FF\nName: foo") (some "Requesting information ...")
    (by decide)

-- ==================== DEVICE REGISTRY MERGES ====================

/-- An entry of the in-memory `devices` dict (also the shape of a
`device_info` dict handed to `process_found_device`).  Fields mirror the keys
the modelled code reads or writes; `none` models an absent key (the callers
relevant to the verified claims never store a Python `None` under a present
key for these fields). -/
structure DeviceRec where
  device_name : Option String := none
  device_type : Option String := none
  manufacturer : Option String := none
  bt_company : Option String := none
  tx_power : Option Int := none
  addr_type : Option String := none
  rssi : Option Int := none
  first_seen : Option Nat := none
  last_seen : Option Nat := none
  packet_count : Option Nat := none
  is_target : Option Bool := none
  emitter_lat : Option ℚ := none
  emitter_lon : Option ℚ := none
  emitter_accuracy : Option ℚ := none
deriving DecidableEq

/-- Python `devices[bd_addr].update(device_info)` (line 5509): every key
present in `info` overwrites the stored value. -/
def dict_update (old info : DeviceRec) : DeviceRec :=
  { device_name := info.device_name <|> old.device_name,
    device_type := info.device_type <|> old.device_type,
    manufacturer := info.manufacturer <|> old.manufacturer,
    bt_company := info.bt_company <|> old.bt_company,
    tx_power := info.tx_power <|> old.tx_power,
    addr_type := info.addr_type <|> old.addr_type,
    rssi := info.rssi <|> old.rssi,
    first_seen := info.first_seen <|> old.first_seen,
    last_seen := info.last_seen <|> old.last_seen,
    packet_count := info.packet_count <|> old.packet_count,
    is_target := info.is_target <|> old.is_target,
    emitter_lat := info.emitter_lat <|> old.emitter_lat,
    emitter_lon := info.emitter_lon <|> old.emitter_lon,
    emitter_accuracy := info.emitter_accuracy <|> old.emitter_accuracy }

/-- The btmon-cache merge of `save_btmon_device_data` (lines 2319-2323):
present (non-`None`) fields overwrite, absent ones are kept. -/
def btmon_cache_merge (old dd : BtmonData) : BtmonData :=
  { device_type := dd.device_type <|> old.device_type,
    device_name := dd.device_name <|> old.device_name,
    company_name := dd.company_name <|> old.company_name,
    rssi := dd.rssi <|> old.rssi,
    tx_power := dd.tx_power <|> old.tx_power,
    addr_type := dd.addr_type <|> old.addr_type,
    adv_type := dd.adv_type <|> old.adv_type,
    timestamp := dd.timestamp <|> old.timestamp }

/-- The `devices`-dict update of `save_btmon_device_data` (lines 2328-2357):
a device type only replaces an unknown/absent one, a name only replaces a
placeholder, company/RSSI/TX-power overwrite when the parsed record carries
them. -/
def btmon_devices_update (d : DeviceRec) (dd : BtmonData) : DeviceRec :=
  let d1 := if (dd.device_type = some "ble" ∨ dd.device_type = some "classic") ∧
               (d.device_type = some "unknown" ∨ d.device_type = none) then
              { d with device_type := dd.device_type }
            else d
  let d2 := if truthyS dd.device_name ∧ (d1.device_name = none ∨ d1.device_name = some "" ∨
               d1.device_name = some "Unknown" ∨ d1.device_name = some "BLE Device") then
              { d1 with device_name := dd.device_name }
            else d1
  let d3 := if truthyS dd.company_name then { d2 with bt_company := dd.company_name } else d2
  let d4 := if dd.rssi.isSome then { d3 with rssi := dd.rssi } else d3
  if dd.tx_power.isSome then { d4 with tx_power := dd.tx_power } else d4

/-- `save_btmon_device_data(bd_addr, device_data)` (lines 2299-2361), acting on
the btmon cache and the `devices` dict.  The parser-state flags and the clock
are inputs; the socket emission is dropped. -/
def save_btmon_device_data (is_le_event is_classic_event : Bool) (now : Nat)
    (cache : List (String × BtmonData)) (devs : List (String × DeviceRec))
    (bd_addr : String) (device_data : BtmonData) :
    List (String × BtmonData) × List (String × DeviceRec) :=
  if bd_addr = "" then (cache, devs)
  else
    let bd := pyupper bd_addr
    let dd0 := if device_data.device_type = none then
                 if is_le_event then { device_data with device_type := some "ble" }
                 else if is_classic_event then { device_data with device_type := some "classic" }
                 else device_data
               else device_data
    let dd := { dd0 with timestamp := some now }
    let cache' := match alist_get cache bd with
      | some old => alist_set cache bd (btmon_cache_merge old dd)
      | none => alist_set cache bd dd
    let devs' := match alist_get devs bd with
      | some d => alist_set devs bd (btmon_devices_update d dd)
      | none => devs
    (cache', devs')

/-- `process_found_device(device_info)` (lines 5472-5590), acting on the
`devices` dict.  The (possibly expired) btmon cache entry for the address, the
three RSSI fallback probes, the target-table membership, the
`update_device_location` result and the clock are inputs; database writes,
alerting and socket emissions are dropped. -/
def process_found_device (btmon_data : Option BtmonData)
    (btmon_rssi btctl_rssi conn_rssi : Option Int) (is_target : Bool)
    (emitter_loc : Option (ℚ × ℚ × ℚ)) (now : Nat)
    (devs : List (String × DeviceRec)) (bd_addr : String) (info : DeviceRec) :
    List (String × DeviceRec) :=
  let info1 := match btmon_data with
    | none => info
    | some b =>
      let i1 := if (info.device_type = some "unknown" ∨ info.device_type = none) ∧
                   truthyS b.device_type then
                  { info with device_type := b.device_type } else info
      let i2 := if (i1.device_name = none ∨ i1.device_name = some "" ∨
                    i1.device_name = some "Unknown" ∨ i1.device_name = some "BLE Device") ∧
                   truthyS b.device_name then
                  { i1 with device_name := b.device_name } else i1
      let i3 := if truthyS b.company_name then { i2 with bt_company := b.company_name } else i2
      let i4 := if b.tx_power.isSome then { i3 with tx_power := b.tx_power } else i3
      if truthyS b.addr_type then { i4 with addr_type := b.addr_type } else i4
  let devs1 := match alist_get devs bd_addr with
    | some old =>
      let merged := dict_update old info1
      alist_set devs bd_addr
        { merged with
          last_seen := some now,
          packet_count := some ((merged.packet_count.getD 0) + 1) }
    | none =>
      alist_set devs bd_addr
        { info1 with
          first_seen := some now,
          last_seen := some now,
          packet_count := some 1 }
  let devs2 := match alist_get devs1 bd_addr with
    | some d => alist_set devs1 bd_addr { d with is_target := some is_target }
    | none => devs1
  let rssi1 := match info1.rssi with | some r => some r | none => btmon_rssi
  let rssi2 := match rssi1 with | some r => some r | none => btctl_rssi
  let rssi := match rssi2 with
    | some r => some r
    | none => if info1.device_type ≠ some "ble" then conn_rssi else none
  let devs3 := if truthyI rssi then
      match alist_get devs2 bd_addr with
      | some d => alist_set devs2 bd_addr { d with rssi := rssi }
      | none => devs2
    else devs2
  if truthyI rssi then
    match emitter_loc with
    | some loc =>
      match alist_get devs3 bd_addr with
      | some d =>
        alist_set devs3 bd_addr
          { d with
            emitter_lat := some loc.1,
            emitter_lon := some loc.2.1,
            emitter_accuracy := some loc.2.2 }
      | none => devs3
    | none => devs3
  else devs3

-- C1 --

/-- The device record a later area-scan pass hands to `process_found_device`
when the device's type can no longer be re-derived: `scan_classic_bluetooth`
stores `get_device_type`'s "unknown" verbatim (lines 1876-1878). -/
def c1_scan_info : DeviceRec :=
  { device_name := some "Unknown", device_type := some "unknown",
    manufacturer := some "OUI:AABBCC", rssi := some (-70) }

/-- C1 fails on the code: a registry holding the definitive LowEnergy
classification for `AA:BB:CC:DD:EE:FF` is silently downgraded back to
"unknown" by `process_found_device`'s blanket `devices[bd_addr].update(device_info)`
merge (line 5509) when a fresh scan observation arrives with type "unknown"
and the btmon cache entry has expired (`get_btmon_device_info` returns
`None` after 60 s, line 2368). -/
theorem C1_definitive_type_downgraded :
    (alist_get
        (process_found_device none none none none false none 1
          [("AA:BB:CC:DD:EE:FF",
            { device_type := some "ble", device_name := some "Tag" })]
          "AA:BB:CC:DD:EE:FF" c1_scan_info)
        "AA:BB:CC:DD:EE:FF").map (fun d => d.device_type) =
      some (some "unknown") := by
  decide

/-- In contrast, the sibling merge `save_btmon_device_data` (lines 2328-2335)
never downgrades a definitive link-layer type, whatever record arrives. -/
theorem btmon_devices_update_keeps_definitive (d : DeviceRec) (dd : BtmonData)
    (h : d.device_type = some "ble" ∨ d.device_type = some "classic") :
    (btmon_devices_update d dd).device_type = d.device_type := by
  have h1 : ¬ ((dd.device_type = some "ble" ∨ dd.device_type = some "classic") ∧
      (d.device_type = some "unknown" ∨ d.device_type = none)) := by
    rintro ⟨-, h2 | h2⟩ <;> rcases h with h | h <;> rw [h] at h2 <;> simp at h2
  simp only [btmon_devices_update]
  rw [if_neg h1]
  split_ifs <;> rfl

-- ==================== DIRECTION FINDING ====================

/-- One entry of a device's `direction_history` window:
`{'lat', 'lon', 'rssi', 'timestamp'}` (timestamps as rational seconds). -/
structure DirReading where
  lat : ℚ
  lon : ℚ
  rssi : ℚ
  ts : ℚ
deriving DecidableEq

/-- The retention rule of `add_direction_reading` (lines 4613-4615):
keep only the last 60 readings. -/
def trim_window (l : List DirReading) : List DirReading :=
  if l.length > 60 then l.drop (l.length - 60) else l

/-- `add_direction_reading(bd_address, lat, lon, rssi)` (lines 4599-4615):
append the new reading to the device's window, then trim it. -/
def add_direction_reading (hist : List (String × List DirReading)) (bd_address : String)
    (lat lon rssi now : ℚ) : List (String × List DirReading) :=
  alist_set hist bd_address
    (trim_window ((alist_get hist bd_address).getD [] ++ [⟨lat, lon, rssi, now⟩]))

/-- `clear_direction_history(bd_address)` (lines 4618-4624), single-address form. -/
def clear_direction_history (hist : List (String × List DirReading)) (bd_address : String) :
    List (String × List DirReading) :=
  hist.filter (fun p => p.1 ≠ bd_address)

/-- The dict returned by `calculate_direction_to_target`. -/
structure DirectionResult where
  bearing : Option ℚ
  confidence : ℚ
  trend : String
  rssi_delta : ℚ
  message : Option String := none
  movement : Option ℚ := none
  movement_bearing : Option ℚ := none
deriving DecidableEq

/-- The 30-second recency filter of `calculate_direction_to_target`
(lines 4520-4523). -/
def recent_window (now : ℚ) (history : List DirReading) : List DirReading :=
  history.filter (fun h => now - 30 < h.ts)

/-- Fallback reading used to read the ends of a window that the guards have
already shown to be nonempty. -/
def dir_default : DirReading := ⟨0, 0, 0, 0⟩

/-- The displacement between the first and the last sample of the recent
window (lines 4528-4531). -/
def window_displacement (hav : ℚ → ℚ → ℚ → ℚ → ℚ) (now : ℚ)
    (history : List DirReading) : ℚ :=
  let recent := recent_window now history
  hav (recent.headD dir_default).lat (recent.headD dir_default).lon
      (recent.getLastD dir_default).lat (recent.getLastD dir_default).lon

/-- Python `max(recent, key=lambda r: r[2])`: the first element of maximal
RSSI (line 4573). -/
def strongest_reading (recent : List DirReading) : DirReading :=
  recent.foldl (fun b r => if r.rssi > b.rssi then r else b) (recent.headD dir_default)

/-- `calculate_direction_to_target(bd_address)` (lines 4497-4596).  The
device's direction history and the clock are the function's inputs; `hav` and
`bear` stand for `haversine_distance` and `calculate_bearing`
(trigonometric, hence parameters). -/
def calculate_direction_to_target (hav bear : ℚ → ℚ → ℚ → ℚ → ℚ) (now : ℚ)
    (history : List DirReading) : Option DirectionResult :=
  if history.length < 3 then none
  else
    if (recent_window now history).length < 3 then none
    else
      if window_displacement hav now history < 2 then
        some { bearing := none, confidence := 0, trend := "stable", rssi_delta := 0,
               message := some "Move to determine direction" }
      else
        let recent := recent_window now history
        let first_pos := recent.headD dir_default
        let last_pos := recent.getLastD dir_default
        let movement := window_displacement hav now history
        let movement_bearing := bear first_pos.lat first_pos.lon last_pos.lat last_pos.lon
        let first_rssi := ((recent.take 3).map (fun r => r.rssi)).sum / 3
        let last_rssi := ((recent.drop (recent.length - 3)).map (fun r => r.rssi)).sum / 3
        let rssi_delta := last_rssi - first_rssi
        let tb0 : Option ℚ :=
          if rssi_delta > 2 then some movement_bearing
          else if rssi_delta < -2 then some (pymod (movement_bearing + 180) 360)
          else none
        let conf0 : ℚ :=
          if rssi_delta > 2 then min 90 (40 + rssi_delta * 5)
          else if rssi_delta < -2 then min 90 (40 + |rssi_delta| * 5)
          else 20
        let trend : String :=
          if rssi_delta > 2 then "closer" else if rssi_delta < -2 then "farther" else "stable"
        let blended : Option ℚ × ℚ :=
          if recent.length ≥ 5 then
            if hav last_pos.lat last_pos.lon (strongest_reading recent).lat
                 (strongest_reading recent).lon > 1 then
              let spatial_bearing := bear last_pos.lat last_pos.lon
                (strongest_reading recent).lat (strongest_reading recent).lon
              match tb0 with
              | some tb => (some (pymod (tb * (6/10) + spatial_bearing * (4/10)) 360),
                            min 95 (conf0 + 10))
              | none => (some spatial_bearing, 50)
            else (tb0, conf0)
          else (tb0, conf0)
        some { bearing := blended.1.map pyround1,
               confidence := pyround0 blended.2,
               trend := trend,
               rssi_delta := pyround1 rssi_delta,
               movement := some (pyround1 movement),
               movement_bearing := some (pyround1 movement_bearing) }

-- C6 --

/-- The `bearing` field of an (optional) direction result. -/
def direction_bearing (r : Option DirectionResult) : Option ℚ :=
  r.bind (fun x => x.bearing)

/-- C6: when the displacement across the recent sample window is below the
2 m minimum-movement threshold, no bearing is returned — whatever the
trigonometry, the clock and the history (this also covers the too-few-samples
results, whose bearing is likewise absent). -/
theorem C6_no_bearing_below_movement_threshold (hav bear : ℚ → ℚ → ℚ → ℚ → ℚ)
    (now : ℚ) (history : List DirReading)
    (h : window_displacement hav now history < 2) :
    direction_bearing (calculate_direction_to_target hav bear now history) = none := by
  unfold calculate_direction_to_target
  split_ifs with h1 h2
  · rfl
  · rfl
  · rfl

/-- Witness for C6: three fresh co-located readings, a zero distance oracle —
the result carries no bearing. -/
theorem C6_no_bearing_below_movement_threshold_witness :
    direction_bearing (calculate_direction_to_target (fun _ _ _ _ => 0)
      (fun _ _ _ _ => 90) 100
      [⟨1, 1, -60, 100⟩, ⟨1, 1, -61, 100⟩, ⟨1, 1, -62, 100⟩]) = none :=
  C6_no_bearing_below_movement_threshold (fun _ _ _ _ => 0) (fun _ _ _ _ => 90) 100
    [⟨1, 1, -60, 100⟩, ⟨1, 1, -61, 100⟩, ⟨1, 1, -62, 100⟩]
    (by norm_num [window_displacement, recent_window, List.filter_cons])

-- C10 --

/-- Reading back through an update of an association list. -/
theorem alist_get_set {α : Type} (h : List (String × α)) (k a : String) (v : α) :
    alist_get (alist_set h k v) a = if k = a then some v else alist_get h a := by
  induction h with
  | nil =>
    by_cases hk : k = a <;> simp [alist_set, alist_get, hk]
  | cons p t ih =>
    obtain ⟨k', v'⟩ := p
    by_cases hk : k' = k
    · subst hk
      by_cases ha : k' = a <;> simp [alist_set, alist_get, ha]
    · by_cases ha : k' = a
      · subst ha
        have : ¬ k = k' := fun he => hk he.symm
        simp [alist_set, alist_get, hk, this]
      · simp [alist_set, alist_get, hk, ha, ih]

/-- The trimmed window never exceeds 60 readings. -/
theorem trim_window_length (l : List DirReading) : (trim_window l).length ≤ 60 := by
  unfold trim_window
  split_ifs with h
  · simp only [List.length_drop]
    omega
  · omega

/-- The trimmed window is a suffix of the untrimmed one: readings are only
discarded from the front. -/
theorem trim_window_suffix (l : List DirReading) : trim_window l <:+ l := by
  unfold trim_window
  split_ifs
  · exact List.drop_suffix _ _
  · exact List.suffix_refl _

/-- One `add_direction_reading` call, as data. -/
structure DirAdd where
  bd : String
  lat : ℚ
  lon : ℚ
  rssi : ℚ
  now : ℚ
deriving DecidableEq

/-- Apply one recorded call. -/
def dir_add_apply (hist : List (String × List DirReading)) (o : DirAdd) :
    List (String × List DirReading) :=
  add_direction_reading hist o.bd o.lat o.lon o.rssi o.now

/-- Run a sequence of `add_direction_reading` calls from the program's empty
initial `direction_history`. -/
def run_direction_adds (ops : List DirAdd) : List (String × List DirReading) :=
  ops.foldl dir_add_apply []

/-- All readings a call sequence pushes for one device, in order. -/
def pushed_readings (ops : List DirAdd) (bd : String) : List DirReading :=
  (ops.filter (fun o => o.bd = bd)).map (fun o => ⟨o.lat, o.lon, o.rssi, o.now⟩)

/-- Suffixes are preserved by appending the same list on the right. -/
theorem suffix_append_right {α : Type} {l1 l2 : List α} (c : List α) (h : l1 <:+ l2) :
    l1 ++ c <:+ l2 ++ c := by
  obtain ⟨t, ht⟩ := h
  exact ⟨t, by rw [← ht, List.append_assoc]⟩

/-- Each device's stored window is a suffix of its pushed readings, from any
starting history. -/
theorem run_adds_suffix :
    ∀ (ops : List DirAdd) (hist : List (String × List DirReading)) (bd : String),
      (alist_get (ops.foldl dir_add_apply hist) bd).getD [] <:+
        (alist_get hist bd).getD [] ++ pushed_readings ops bd := by
  intro ops
  induction ops with
  | nil =>
    intro hist bd
    simp [pushed_readings]
  | cons o t ih =>
    intro hist bd
    have step := ih (dir_add_apply hist o) bd
    by_cases hbd : o.bd = bd
    · have hget : (alist_get (dir_add_apply hist o) bd).getD [] =
          trim_window ((alist_get hist bd).getD [] ++ [⟨o.lat, o.lon, o.rssi, o.now⟩]) := by
        unfold dir_add_apply add_direction_reading
        rw [hbd, alist_get_set]
        simp
      have hpush : pushed_readings (o :: t) bd =
          ⟨o.lat, o.lon, o.rssi, o.now⟩ :: pushed_readings t bd := by
        unfold pushed_readings
        rw [List.filter_cons, if_pos (by simpa using hbd), List.map_cons]
      rw [List.foldl_cons]
      refine List.IsSuffix.trans step ?_
      rw [hget, hpush]
      have h1 : trim_window ((alist_get hist bd).getD [] ++ [⟨o.lat, o.lon, o.rssi, o.now⟩])
            ++ pushed_readings t bd <:+
          ((alist_get hist bd).getD [] ++ [⟨o.lat, o.lon, o.rssi, o.now⟩])
            ++ pushed_readings t bd :=
        suffix_append_right _ (trim_window_suffix _)
      simpa [List.append_assoc] using h1
    · have hget : alist_get (dir_add_apply hist o) bd = alist_get hist bd := by
        unfold dir_add_apply add_direction_reading
        rw [alist_get_set, if_neg hbd]
      have hpush : pushed_readings (o :: t) bd = pushed_readings t bd := by
        unfold pushed_readings
        rw [List.filter_cons, if_neg (by simpa using hbd)]
      rw [List.foldl_cons, hpush]
      rw [hget] at step
      exact step

/-- Every window stays at 60 readings or fewer, from any starting history
whose windows already satisfy the bound. -/
theorem run_adds_length :
    ∀ (ops : List DirAdd) (hist : List (String × List DirReading)),
      (∀ k, ((alist_get hist k).getD []).length ≤ 60) →
      ∀ bd, ((alist_get (ops.foldl dir_add_apply hist) bd).getD []).length ≤ 60 := by
  intro ops
  induction ops with
  | nil => intro hist hinv bd; exact hinv bd
  | cons o t ih =>
    intro hist hinv bd
    rw [List.foldl_cons]
    refine ih (dir_add_apply hist o) ?_ bd
    intro k
    unfold dir_add_apply add_direction_reading
    rw [alist_get_set]
    split_ifs with hk
    · simpa using trim_window_length _
    · exact hinv k

/-- C10: after any sequence of `add_direction_reading` calls, each device's
direction history holds at most 60 readings, and what is held is a suffix of
everything pushed for that device — the oldest readings are discarded first. -/
theorem C10_direction_window_bounded (ops : List DirAdd) (bd : String) :
    ((alist_get (run_direction_adds ops) bd).getD []).length ≤ 60 ∧
      (alist_get (run_direction_adds ops) bd).getD [] <:+ pushed_readings ops bd := by
  constructor
  · exact run_adds_length ops [] (fun k => by simp [alist_get]) bd
  · have := run_adds_suffix ops [] bd
    simpa [alist_get] using this

-- ==================== ORCHESTRATION (active geo sessions) ====================

/-- An `active_geo_sessions` entry:
`{'active': bool, 'interface': str, 'methods': list, 'thread': ...}`. -/
structure GeoSession where
  active : Bool
  interface : String
  methods : List String
  has_thread : Bool
deriving DecidableEq

/-- The shared mutable state the modelled orchestration code touches: the
`devices` dict (the in-memory Registry), the `active_geo_sessions` table, the
`direction_history` windows, and a running count of tracking threads ever
spawned. -/
structure TrackerState where
  devices : List (String × DeviceRec)
  sessions : List (String × GeoSession)
  dirhist : List (String × List DirReading)
  tasks : Nat
deriving DecidableEq

/-- `start_active_geo(bd_address, interface, methods)` (lines 5052-5080):
duplicate-start guard, session creation, thread spawn.  Returns the new state
and the status string of the returned dict.  Mirroring the source comment at
line 5077, the device map is untouched: no Registry entry is created at
session start. -/
def start_active_geo (st : TrackerState) (bd_address interface : String)
    (methods : List String) : TrackerState × String :=
  if (alist_get st.sessions bd_address).map (fun s => s.active) = some true then
    (st, "already_running")
  else
    ({ st with
       sessions := alist_set st.sessions bd_address
         { active := true, interface := interface, methods := methods, has_thread := true },
       tasks := st.tasks + 1 },
     "started")

/-- `stop_active_geo(bd_address)` (lines 5083-5093): deactivate the session if
present and clear the device's direction-finding window. -/
def stop_active_geo (st : TrackerState) (bd_address : String) : TrackerState × String :=
  match alist_get st.sessions bd_address with
  | some s =>
    ({ st with
       sessions := alist_set st.sessions bd_address { s with active := false },
       dirhist := clear_direction_history st.dirhist bd_address },
     "stopped")
  | none => (st, "not_running")

-- C4 --

/-- C4's "the second call returns the same session status as the first" fails
on the code: from a fresh state the first start reports "started" while the
duplicate start reports "already_running". -/
theorem C4_counterexample :
    (start_active_geo ⟨[], [], [], 0⟩ "AA:BB:CC:DD:EE:FF" "hci0" ["l2ping", "rssi"]).2 =
        "started" ∧
    (start_active_geo
        (start_active_geo ⟨[], [], [], 0⟩ "AA:BB:CC:DD:EE:FF" "hci0" ["l2ping", "rssi"]).1
        "AA:BB:CC:DD:EE:FF" "hci0" ["l2ping", "rssi"]).2 = "already_running" := by
  decide

/-- C4 amended: a second `start_active_geo` for an address whose session was
just started (or was already running) is a no-op on the state — no new session
entry, no additional tracking task — and it reports the existing session with
status "already_running", which differs from the first call's "started". -/
theorem C4_duplicate_start_noop (st : TrackerState) (bd_address i1 i2 : String)
    (m1 m2 : List String) :
    start_active_geo (start_active_geo st bd_address i1 m1).1 bd_address i2 m2 =
      ((start_active_geo st bd_address i1 m1).1, "already_running") := by
  by_cases h1 : (alist_get st.sessions bd_address).map (fun s => s.active) = some true
  · simp only [start_active_geo, if_pos h1]
  · simp only [start_active_geo, if_neg h1]
    rw [if_pos]
    rw [alist_get_set]
    simp

-- ==================== ACTIVE GEO TRACKING LOOP ====================

/-- Everything one iteration of the `active_geo_track` while-loop receives
from the outside world: the l2ping RTT parse, the direct `hcitool rssi` query,
the two RSSI fallback caches, the GPS fix, the classifier inputs and oracle
values for a potential `process_found_device` call, and the clock. -/
structure ProbeInput where
  l2ping_rtt : Option ℚ
  hcitool_rssi : Option Int
  btmon_rssi : Option Int
  btctl_rssi : Option Int
  loc : Option (ℚ × ℚ)
  btmon_info : Option BtmonData
  btctl_out : Option String
  hcitool_out : Option String
  manufacturer : Option String
  pfd_btmon_data : Option BtmonData
  pfd_btmon_rssi : Option Int
  pfd_btctl_rssi : Option Int
  pfd_conn_rssi : Option Int
  is_target : Bool
  pfd_emitter_loc : Option (ℚ × ℚ × ℚ)
  loop_emitter_loc : Option (ℚ × ℚ × ℚ)
  now : Nat
deriving DecidableEq

/-- The RTT obtained in one iteration (lines 4889-4908: only when "l2ping" is
among the selected methods). -/
def geo_rtt (methods : List String) (inp : ProbeInput) : Option ℚ :=
  if "l2ping" ∈ methods then inp.l2ping_rtt else none

/-- The RSSI obtained in one iteration: direct query (only when "rssi" is
selected), then the btmon cache, then bluetoothctl (lines 4910-4939). -/
def geo_rssi (methods : List String) (inp : ProbeInput) : Option Int :=
  let r0 := if "rssi" ∈ methods then inp.hcitool_rssi else none
  let r1 := match r0 with | some r => some r | none => inp.btmon_rssi
  match r1 with | some r => some r | none => inp.btctl_rssi

/-- Line 4944: `got_response = (rtt is not None) or (rssi is not None)`. -/
def got_response (methods : List String) (inp : ProbeInput) : Bool :=
  (geo_rtt methods inp).isSome || (geo_rssi methods inp).isSome

/-- The loop-local counters of `active_geo_track`, carried with the shared
state. -/
structure GeoLoopState where
  state : TrackerState
  ping_count : Nat
  successful_pings : Nat
  rssi_readings : Nat
  rtt_history : List ℚ
deriving DecidableEq

/-- One iteration of the `active_geo_track` while-loop (lines 4882-5047),
without the socket emissions.  The device-record construction of lines
4959-4968 — including its `unknown → classic` default — and the
`process_found_device` call guarded by `bd_address not in devices and
got_response` are mirrored exactly. -/
def active_geo_track_step (methods : List String) (bd_address : String)
    (ls : GeoLoopState) (inp : ProbeInput) : GeoLoopState :=
  let rtt := geo_rtt methods inp
  let ping_count := ls.ping_count + 1
  let successful_pings := ls.successful_pings + (if rtt.isSome then 1 else 0)
  let rtt_history := match rtt with
    | some r => ls.rtt_history ++ [r]
    | none => ls.rtt_history
  let rssi_readings := ls.rssi_readings +
    (if (if "rssi" ∈ methods then inp.hcitool_rssi else none).isSome then 1 else 0)
  let st := ls.state
  match inp.loc, geo_rssi methods inp with
  | some loc, some r =>
    if loc.1 ≠ 0 ∧ loc.2 ≠ 0 ∧ r ≠ 0 then
      let devs1 := if alist_mem st.devices bd_address = false ∧
                      got_response methods inp = true then
          process_found_device inp.pfd_btmon_data inp.pfd_btmon_rssi inp.pfd_btctl_rssi
            inp.pfd_conn_rssi inp.is_target inp.pfd_emitter_loc inp.now st.devices bd_address
            { device_name := none,
              device_type := some (active_geo_recorded_type
                (get_device_type inp.btmon_info inp.btctl_out inp.hcitool_out)),
              manufacturer := inp.manufacturer,
              rssi := some r }
        else st.devices
      let devs2 := match alist_get devs1 bd_address with
        | some d =>
          alist_set devs1 bd_address { d with rssi := some r, last_seen := some inp.now }
        | none => devs1
      let dirhist := add_direction_reading st.dirhist bd_address loc.1 loc.2
        ((r : Int) : ℚ) ((inp.now : Nat) : ℚ)
      let devs3 := if rssi_readings ≥ 2 then
          match inp.loop_emitter_loc with
          | some el =>
            match alist_get devs2 bd_address with
            | some d =>
              alist_set devs2 bd_address
                { d with
                  emitter_lat := some el.1,
                  emitter_lon := some el.2.1,
                  emitter_accuracy := some el.2.2 }
            | none => devs2
          | none => devs2
        else devs2
      { state := { st with devices := devs3, dirhist := dirhist },
        ping_count := ping_count, successful_pings := successful_pings,
        rssi_readings := rssi_readings, rtt_history := rtt_history }
    else
      { state := st, ping_count := ping_count, successful_pings := successful_pings,
        rssi_readings := rssi_readings, rtt_history := rtt_history }
  | _, _ =>
    { state := st, ping_count := ping_count, successful_pings := successful_pings,
      rssi_readings := rssi_readings, rtt_history := rtt_history }

/-- Run the `active_geo_track` loop over a sequence of iteration inputs. -/
def active_geo_track_run (methods : List String) (bd_address : String)
    (ls : GeoLoopState) (inps : List ProbeInput) : GeoLoopState :=
  inps.foldl (active_geo_track_step methods bd_address) ls

/-- A probe iteration in which the tracked address never responds through any
channel: no RTT and no RSSI from any source. -/
def no_response (inp : ProbeInput) : Prop :=
  inp.l2ping_rtt = none ∧ inp.hcitool_rssi = none ∧
    inp.btmon_rssi = none ∧ inp.btctl_rssi = none

/-- Without a response there is no RSSI from any channel. -/
theorem geo_rssi_of_no_response (methods : List String) (inp : ProbeInput)
    (h : no_response inp) : geo_rssi methods inp = none := by
  obtain ⟨-, h2, h3, h4⟩ := h
  unfold geo_rssi
  rw [h2, h3, h4]
  split_ifs <;> rfl

/-- A no-response iteration leaves the whole shared state unchanged. -/
theorem step_state_of_no_response (methods : List String) (bd_address : String)
    (ls : GeoLoopState) (inp : ProbeInput) (h : no_response inp) :
    (active_geo_track_step methods bd_address ls inp).state = ls.state := by
  unfold active_geo_track_step
  rw [geo_rssi_of_no_response methods inp h]
  cases inp.loc <;> rfl

-- C3 --

/-- C3: a tracking session contributes a Registry entry only on a response.
(1) `start_active_geo` never touches the device map; (2) a whole tracking run
against an address that never responds leaves the device map unchanged;
(3) a single loop iteration without a response (`got_response` false) leaves
the device map unchanged — so a device can only ever be added by an iteration
that actually received one. -/
theorem C3_registry_only_after_response :
    (∀ (st : TrackerState) (bd_address interface : String) (methods : List String),
      ((start_active_geo st bd_address interface methods).1).devices = st.devices) ∧
    (∀ (methods : List String) (bd_address : String) (ls : GeoLoopState)
        (inps : List ProbeInput), (∀ inp ∈ inps, no_response inp) →
      (active_geo_track_run methods bd_address ls inps).state.devices =
        ls.state.devices) ∧
    (∀ (methods : List String) (bd_address : String) (ls : GeoLoopState)
        (inp : ProbeInput), got_response methods inp = false →
      (active_geo_track_step methods bd_address ls inp).state.devices =
        ls.state.devices) := by
  refine ⟨?_, ?_, ?_⟩
  · intro st bd_address interface methods
    unfold start_active_geo
    split_ifs <;> rfl
  · intro methods bd_address ls inps
    induction inps generalizing ls with
    | nil => intro _; rfl
    | cons i t ih =>
      intro hall
      have h1 := step_state_of_no_response methods bd_address ls i (hall i (by simp))
      have h2 := ih (active_geo_track_step methods bd_address ls i)
        (fun inp hm => hall inp (by simp [hm]))
      unfold active_geo_track_run at h2 ⊢
      rw [List.foldl_cons, h2, h1]
  · intro methods bd_address ls inp hg
    have hr : geo_rssi methods inp = none := by
      unfold got_response at hg
      rw [Bool.or_eq_false_iff] at hg
      cases hx : geo_rssi methods inp with
      | none => rfl
      | some r => rw [hx] at hg; simp at hg
    unfold active_geo_track_step
    rw [hr]
    cases inp.loc <;> rfl

/-- Witness for C3 at concrete inputs: a fresh start leaves an empty Registry
empty, a two-iteration run with no responses changes nothing, and a silent
iteration from a nonempty state changes nothing. -/
theorem C3_registry_only_after_response_witness :
    ((start_active_geo ⟨[], [], [], 0⟩ "AA:BB:CC:DD:EE:FF" "hci0"
        ["l2ping", "rssi"]).1).devices = [] ∧
    (active_geo_track_run ["l2ping", "rssi"] "AA:BB:CC:DD:EE:FF"
        ⟨⟨[], [], [], 0⟩, 0, 0, 0, []⟩
        [⟨none, none, none, none, none, none, none, none, none, none, none, none, none,
          false, none, none, 0⟩,
         ⟨none, none, none, none, some (1, 1), none, none, none, none, none, none, none,
          none, false, none, none, 1⟩]).state.devices = [] ∧
    (active_geo_track_step ["l2ping", "rssi"] "AA:BB:CC:DD:EE:FF"
        ⟨⟨[("11:22:33:44:55:66", { device_type := some "classic" })], [], [], 0⟩,
          0, 0, 0, []⟩
        ⟨none, none, none, none, some (1, 1), none, none, none, none, none, none, none,
          none, false, none, none, 2⟩).state.devices =
      [("11:22:33:44:55:66", { device_type := some "classic" })] := by
  refine ⟨?_, ?_, ?_⟩
  · exact (C3_registry_only_after_response.1 ⟨[], [], [], 0⟩ "AA:BB:CC:DD:EE:FF" "hci0"
      ["l2ping", "rssi"]).trans rfl
  · exact (C3_registry_only_after_response.2.1 ["l2ping", "rssi"] "AA:BB:CC:DD:EE:FF"
      ⟨⟨[], [], [], 0⟩, 0, 0, 0, []⟩ _
      (by intro inp hm; fin_cases hm <;> exact ⟨rfl, rfl, rfl, rfl⟩)).trans rfl
  · exact (C3_registry_only_after_response.2.2 ["l2ping", "rssi"] "AA:BB:CC:DD:EE:FF"
      ⟨⟨[("11:22:33:44:55:66", { device_type := some "classic" })], [], [], 0⟩,
        0, 0, 0, []⟩
      ⟨none, none, none, none, some (1, 1), none, none, none, none, none, none, none,
        none, false, none, none, 2⟩ (by decide)).trans rfl
